import Mathlib

/-!
Verification development for the `magtag_gateway` status-resolution engine
(`src/main.rs`).  Instants are modelled as whole seconds since the Unix epoch
(`Int`); timezone-aware values of the source become absolute instants together
with explicit projection functions into the venue (US/Pacific) timezone.
Fallible code (Rust panics from indexing and `expect`) is modelled with
`Option`.  The one ambient effect inside the engine — `Utc::now()` read by
`NextUp::default()` — is made an explicit `ambient_now` parameter.
-/

/-! ## Civil-calendar arithmetic (model of `chrono` date handling) -/

/-- Days since 1970-01-01 for a civil date (proleptic Gregorian).
Standard era-based algorithm, as used by `chrono` internally. -/
def daysFromCivil (y m d : Int) : Int :=
  let y := if m ≤ 2 then y - 1 else y
  let era := Int.fdiv y 400
  let yoe := y - era * 400
  let mp := if m > 2 then m - 3 else m + 9
  let doy := Int.fdiv (153 * mp + 2) 5 + d - 1
  let doe := yoe * 365 + Int.fdiv yoe 4 - Int.fdiv yoe 100 + doy
  era * 146097 + doe - 719468

/-- Civil date `(year, month, day)` from days since 1970-01-01. -/
def civilFromDays (z : Int) : Int × Int × Int :=
  let z := z + 719468
  let era := Int.fdiv z 146097
  let doe := z - era * 146097
  let yoe := Int.fdiv (doe - Int.fdiv doe 1460 + Int.fdiv doe 36524 - Int.fdiv doe 146096) 365
  let y := yoe + era * 400
  let doy := doe - (365 * yoe + Int.fdiv yoe 4 - Int.fdiv yoe 100)
  let mp := Int.fdiv (5 * doy + 2) 153
  let d := doy - Int.fdiv (153 * mp + 2) 5 + 1
  let m := if mp < 10 then mp + 3 else mp - 9
  (if m ≤ 2 then y + 1 else y, m, d)

/-- Day of week for an epoch-day count, `0` = Sunday (1970-01-01 was a Thursday). -/
def weekdayOfDays (z : Int) : Int :=
  Int.emod (z + 4) 7

/-- Epoch-day of the first Sunday on or after the given epoch-day. -/
def firstSundayOnOrAfter (z : Int) : Int :=
  z + Int.emod (7 - weekdayOfDays z) 7

/-- UTC instant at which US daylight saving time starts in year `y`
(second Sunday of March, 02:00 local standard time = 10:00 UTC).
Model of the `chrono_tz` US/Pacific rules in force since 2007, the era of
every instant this program handles. -/
def dstStartUtc (y : Int) : Int :=
  (firstSundayOnOrAfter (daysFromCivil y 3 1) + 7) * 86400 + 10 * 3600

/-- UTC instant at which US daylight saving time ends in year `y`
(first Sunday of November, 02:00 local daylight time = 09:00 UTC). -/
def dstEndUtc (y : Int) : Int :=
  firstSundayOnOrAfter (daysFromCivil y 11 1) * 86400 + 9 * 3600

/-- Offset in seconds of US/Pacific local time from UTC at the given instant
(`-25200` during daylight saving, `-28800` otherwise).  Model of
`chrono_tz::US::Pacific`. -/
def pacificOffset (ts : Int) : Int :=
  let y := (civilFromDays (Int.fdiv ts 86400)).1
  if dstStartUtc y ≤ ts ∧ ts < dstEndUtc y then -25200 else -28800

/-- The Pacific-local civil day (as an epoch-day count) of an instant:
model of `DateTime::with_timezone(&Pacific).date()`. -/
def pacificDay (ts : Int) : Int :=
  Int.fdiv (ts + pacificOffset ts) 86400

/-- Seconds elapsed since Pacific-local midnight at the given instant. -/
def pacificSecondsOfDay (ts : Int) : Nat :=
  (Int.emod (ts + pacificOffset ts) 86400).toNat

/-- Decimal rendering of a number zero-padded to two digits:
model of Rust's `{:02}` format specifier. -/
def pad2 (n : Nat) : String :=
  if n < 10 then "0" ++ toString n else toString n

/-- Model of `format_date_time` (`src/main.rs` line 224): format an instant in
Pacific time as `%-I:%M%p` — 12-hour clock with no leading zero on the hour,
zero-padded minutes, uppercase meridiem. -/
def format_date_time (ts : Int) : String :=
  let sod := pacificSecondsOfDay ts
  let hour := sod / 3600
  let minute := sod % 3600 / 60
  let h12 := if hour % 12 = 0 then 12 else hour % 12
  let mer := if hour < 12 then "AM" else "PM"
  toString h12 ++ ":" ++ pad2 minute ++ mer

/-- English month abbreviation, as produced by `chrono`'s `%b`. -/
def monthAbbrev (m : Int) : String :=
  if m = 1 then "Jan" else if m = 2 then "Feb" else if m = 3 then "Mar"
  else if m = 4 then "Apr" else if m = 5 then "May" else if m = 6 then "Jun"
  else if m = 7 then "Jul" else if m = 8 then "Aug" else if m = 9 then "Sep"
  else if m = 10 then "Oct" else if m = 11 then "Nov" else "Dec"

/-- Model of `format_game_time_relative` (`src/main.rs` lines 228-248). -/
def format_game_time_relative (dt utc_now : Int) (is_tdb : Bool) : String :=
  if pacificDay dt = pacificDay utc_now then
    if is_tdb then "Today" else "Today @ " ++ format_date_time dt
  else
    let md := civilFromDays (pacificDay dt)
    let datePart := monthAbbrev md.2.1 ++ " " ++ toString md.2.2
    if is_tdb then datePart else datePart ++ " @ " ++ format_date_time dt

/-! ## Constants and sleep policy -/

def ONE_MINUTE_IN_SECONDS : Int := 60

def ONE_HOUR_IN_SECONDS : Int := 60 * ONE_MINUTE_IN_SECONDS

def TWO_HOURS_IN_SECONDS : Int := 2 * ONE_HOUR_IN_SECONDS

def TWENTY_MINUTES_IN_SECONDS : Int := 20 * ONE_MINUTE_IN_SECONDS

/-- Model of `sleep_time` (`src/main.rs` lines 250-260).  Subtraction of two
timezone-aware `chrono` datetimes is subtraction of absolute instants. -/
def sleep_time (date_time utc_now : Int) : Int :=
  let duration_until_game_seconds := date_time - utc_now
  if duration_until_game_seconds < 0 then
    TWO_HOURS_IN_SECONDS
  else if duration_until_game_seconds > TWENTY_MINUTES_IN_SECONDS then
    min (duration_until_game_seconds - TWENTY_MINUTES_IN_SECONDS) TWO_HOURS_IN_SECONDS
  else
    ONE_MINUTE_IN_SECONDS

/-! ## Data model (the parsed upstream documents) -/

structure Team where
  id : Nat
  name : String
deriving DecidableEq

structure TeamAtGame where
  score : Option Nat
  team : Team
deriving DecidableEq

structure Teams where
  home : TeamAtGame
  away : TeamAtGame
deriving DecidableEq

structure Status where
  abstract_game_state : String
  detailed_state : String
deriving DecidableEq

def Status.is_preview (s : Status) : Bool :=
  s.abstract_game_state = "Preview"

def Status.is_pregame (s : Status) : Bool :=
  s.detailed_state = "Pre-Game"

def Status.is_live (s : Status) : Bool :=
  s.abstract_game_state = "Live"

def Status.is_tbd (s : Status) : Bool :=
  s.detailed_state = "Scheduled (Time TBD)"

structure IntermissionInfo where
  in_intermission : Bool
  intermission_time_remaining : Nat
deriving DecidableEq

structure Linescore where
  current_period : Nat
  current_period_ordinal : Option String
  current_period_time_remaining : Option String
  intermission_info : Option IntermissionInfo
deriving DecidableEq

structure Game where
  game_pk : Nat
  game_date : Int
  teams : Teams
  status : Status
  linescore : Option Linescore
deriving DecidableEq

structure GameDate where
  date : String
  games : List Game
deriving DecidableEq

structure NextGameSchedule where
  total_items : Nat
  dates : List GameDate
deriving DecidableEq

structure ScheduledTeam where
  id : Nat
  name : String
  next_game_schedule : Option NextGameSchedule
deriving DecidableEq

structure Response where
  teams : List ScheduledTeam
deriving DecidableEq

/-- The resolved display payload (`struct NextUp`, `src/main.rs` lines 206-214). -/
structure NextUp where
  top : String
  middle : String
  bottom : String
  time : String
  sleep : Int
  date : Int
deriving DecidableEq

/-- Model of `NextGameSchedule::game_today` (`src/main.rs` lines 179-190).
The Rust indexes `dates[0]` and `games[0]` unconditionally once
`total_items >= 1`; an out-of-range index panics, modelled as `none`. -/
def NextGameSchedule.game_today (s : NextGameSchedule) (utc_now : Int) : Option Bool :=
  if s.total_items < 1 then
    some false
  else
    (s.dates[0]?).bind fun game_date =>
      (game_date.games[0]?).bind fun game =>
        some (pacificDay game.game_date = pacificDay utc_now)

/-! ## Game-identity decoder -/

structure PlayoffGameNumber where
  round : Nat
  matchup : Nat
  game : Nat
deriving DecidableEq

/-- Model of `PlayoffGameNumber::parse` (`src/main.rs` lines 279-290). -/
def PlayoffGameNumber.parse (game_number : Nat) : PlayoffGameNumber :=
  let game_number := game_number % 10000
  { round := game_number / 100
    matchup := (game_number % 100) / 10
    game := game_number % 10 }

inductive GameType where
  | Preseason (n : Nat)
  | Regular (n : Nat)
  | Playoff (p : PlayoffGameNumber)
deriving DecidableEq

/-- Model of `GameType::parse` (`src/main.rs` lines 299-309): phase code `1`
is preseason, `3` playoff, anything else regular. -/
def GameType.parse (game_id : Nat) : GameType :=
  let game_number := game_id % 100000
  let game_type := game_number / 10000
  if game_type = 1 then GameType.Preseason game_number
  else if game_type = 3 then GameType.Playoff (PlayoffGameNumber.parse game_number)
  else GameType.Regular game_number

structure GameId where
  season : Nat
  game_type : GameType
deriving DecidableEq

/-- Model of `decode_game_id` (`src/main.rs` lines 317-324): always `some`. -/
def decode_game_id (game_id : Nat) : Option GameId :=
  some { season := game_id / 1000000, game_type := GameType.parse game_id }

/-- Model of `formatted_next_up` (`src/main.rs` lines 326-336). -/
def formatted_next_up (team : String) (game_id : Nat) : String :=
  let default_value := team ++ " Next Up"
  match decode_game_id game_id with
  | some gid =>
    match gid.game_type with
    | GameType.Playoff pgn => team ++ " - Game " ++ toString pgn.game
    | _ => default_value
  | none => default_value

/-! ## The resolution engine -/

/-- Model of `opponent_name` (`src/main.rs` lines 216-222). -/
def opponent_name (teams : Teams) (home_team : Nat) : String :=
  if teams.home.team.id = home_team then
    "vs " ++ teams.away.team.name
  else
    "@ " ++ teams.home.team.name

/-- Model of `impl Default for NextUp` (`src/main.rs` lines 338-352).  The
Rust reads `Utc::now()`; that ambient instant is the explicit argument here. -/
def NextUp.default (ambient_now : Int) : NextUp :=
  { bottom := ""
    middle := "No Games"
    top := "No Team Name"
    time := format_date_time ambient_now
    sleep := 900
    date := ambient_now }

/-- The `(top, bottom)` pair computed by the `today`-governs branch of
`NextUp::new` (`src/main.rs` lines 377-416).  The missing
`intermission_info` `expect` panic is modelled as `none`. -/
def today_top_bottom (nickname : String) (game : Game) (linescore : Linescore) :
    Option (String × String) :=
  if game.status.is_preview then
    if game.status.is_pregame then
      some ("Pregame", "Live")
    else
      some (formatted_next_up nickname game.game_pk,
            "Today @ " ++ format_date_time game.game_date)
  else if game.status.is_live then
    match linescore.intermission_info with
    | none => none
    | some intermission_info =>
      if intermission_info.in_intermission then
        let m := intermission_info.intermission_time_remaining / 60
        let s := intermission_info.intermission_time_remaining % 60
        some ((linescore.current_period_ordinal.getD "1st") ++ " int|"
                ++ toString m ++ ":" ++ pad2 s,
              "Live")
      else
        some ((linescore.current_period_ordinal.getD "1st") ++ " | "
                ++ (linescore.current_period_time_remaining.getD "00:00"),
              "Live")
  else
    some ("Final", "")

/-- The `today`-governs branch of `NextUp::new` (`src/main.rs` lines 367-424):
assembles the payload from the pair computed by `today_top_bottom`. -/
def todayBranch (nickname : String) (game : Game) (linescore : Linescore)
    (team_id : Nat) (utc_now : Int) : Option NextUp :=
  (today_top_bottom nickname game linescore).map fun tb =>
    { top := tb.1
      middle := opponent_name game.teams team_id
      bottom := tb.2
      time := format_date_time utc_now
      sleep := sleep_time game.game_date utc_now
      date := game.game_date }

/-- The `next`-governs branch of `NextUp::new` (`src/main.rs` lines 431-454). -/
def nextBranch (nickname : String) (game : Game) (team_id : Nat) (utc_now : Int) : NextUp :=
  { bottom := format_game_time_relative game.game_date utc_now game.status.is_tbd
    middle := opponent_name game.teams team_id
    top := formatted_next_up nickname game.game_pk
    time := format_date_time utc_now
    sleep := sleep_time game.game_date utc_now
    date := game.game_date }

/-- Model of `NextUp::new` (`src/main.rs` lines 354-463) over the parsed
documents (`serde_json` parsing is the caller's concern).  Rust panics
(out-of-range indexing, the `linescore` and `intermission_info` `expect`s)
are modelled as `none`; `ambient_now` models the `Utc::now()` read inside
`NextUp::default()` in the no-next-schedule branch. -/
def NextUp.new (nickname : String) (line_schedule : NextGameSchedule)
    (schedule : Response) (team_id : Nat) (utc_now : Int) (ambient_now : Int) :
    Option NextUp :=
  (line_schedule.game_today utc_now).bind fun gt =>
    if gt then
      (line_schedule.dates[0]?).bind fun game_date =>
        (game_date.games[0]?).bind fun game =>
          (game.linescore).bind fun linescore =>
            todayBranch nickname game linescore team_id utc_now
    else
      (schedule.teams[0]?).bind fun team =>
        match team.next_game_schedule with
        | some next_game_schedule =>
          (next_game_schedule.dates[0]?).bind fun game_date =>
            (game_date.games[0]?).bind fun game =>
              some (nextBranch nickname game team_id utc_now)
        | none =>
          some { NextUp.default ambient_now with top := nickname ++ " Next Up" }

/-- Model of the merge/selector at the heart of `get_next_up_either`
(`src/main.rs` lines 712-724), over the two already-resolved payloads.
`ambient_now` models the `Utc::now()` inside `unwrap_or_default()`. -/
def get_next_up_either (b_next nhl_next : Option NextUp) (ambient_now : Int) : NextUp :=
  match b_next with
  | none => nhl_next.getD (NextUp.default ambient_now)
  | some b =>
    match nhl_next with
    | none => b
    | some nhl => if nhl.date < b.date then nhl else b

/-! ## Concrete inputs, mirroring the repository's test fixtures -/

/-- 2021-03-21T17:00:00Z, i.e. 10:00AM Pacific daylight time. -/
def tsMar21 : Int := daysFromCivil 2021 3 21 * 86400 + 17 * 3600

/-- 2021-03-19T10:00:00Z. -/
def tsMar19 : Int := daysFromCivil 2021 3 19 * 86400 + 10 * 3600

/-- Penguins at home against the Devils, as in the `NJD_*` fixtures. -/
def pensVsDevils : Teams :=
  { home := { score := some 0, team := { id := 5, name := "Pittsburgh Penguins" } }
    away := { score := some 0, team := { id := 1, name := "New Jersey Devils" } } }

/-- A live game on 2021-03-21 in first-period intermission with the given
remaining seconds. -/
def gameIntermission (secs : Nat) : Game :=
  { game_pk := 2020020694
    game_date := tsMar21
    teams := pensVsDevils
    status := { abstract_game_state := "Live", detailed_state := "In Progress" }
    linescore := some
      { current_period := 1
        current_period_ordinal := some "1st"
        current_period_time_remaining := some "20:00"
        intermission_info := some
          { in_intermission := true, intermission_time_remaining := secs } } }

def lineIntermission (secs : Nat) : NextGameSchedule :=
  { total_items := 1
    dates := [{ date := "2021-03-21", games := [gameIntermission secs] }] }

/-- A finished game on 2021-03-21, with period/clock fields still present. -/
def gameFinal : Game :=
  { game_pk := 2020020694
    game_date := tsMar21
    teams := pensVsDevils
    status := { abstract_game_state := "Final", detailed_state := "Final" }
    linescore := some
      { current_period := 3
        current_period_ordinal := some "3rd"
        current_period_time_remaining := some "00:00"
        intermission_info := some
          { in_intermission := false, intermission_time_remaining := 0 } } }

def lineFinal : NextGameSchedule :=
  { total_items := 1
    dates := [{ date := "2021-03-21", games := [gameFinal] }] }

/-- The empty linescore document (`EMPTY_LINESCORE` in the tests). -/
def emptyLine : NextGameSchedule := { total_items := 0, dates := [] }

/-- A `next` document whose team carries no next-game schedule
(`sjs_done.json` shape). -/
def respNone : Response :=
  { teams := [{ id := 28, name := "San Jose Sharks", next_game_schedule := none }] }

/-- A `next` document with an upcoming game on 2021-03-21 (`NJD_before.json`
shape). -/
def respNext : Response :=
  { teams := [{ id := 1
                name := "New Jersey Devils"
                next_game_schedule := some
                  { total_items := 1
                    dates := [{ date := "2021-03-21"
                                games := [{ game_pk := 2020020694
                                            game_date := tsMar21
                                            teams := pensVsDevils
                                            status := { abstract_game_state := "Preview"
                                                        detailed_state := "Scheduled" }
                                            linescore := none }] }] } }] }

/-- Two concrete merge candidates with distinct event instants. -/
def nuEarly : NextUp :=
  { top := "Cuda Next Up", middle := "Ontario Reign", bottom := "Today @ 7:00PM"
    time := "10:00AM", sleep := 60, date := tsMar21 }

def nuLate : NextUp :=
  { top := "Sharks Next Up", middle := "@ Pittsburgh Penguins", bottom := "Mar 23 @ 10:00AM"
    time := "10:00AM", sleep := 7200, date := tsMar21 + 2 * 86400 }

/-- The payload the engine resolves for `lineFinal` at `tsMar21`. -/
def finalPayload : NextUp :=
  { top := "Final", middle := "@ Pittsburgh Penguins", bottom := ""
    time := "10:00AM", sleep := 60, date := tsMar21 }

/-! ## Helper lemmas -/

theorem string_vs_ne_at (x y : String) : "vs " ++ x ≠ "@ " ++ y := by
  intro h
  have h2 := congrArg String.data h
  rw [String.data_append, String.data_append] at h2
  have hv : ("vs ").data = ['v', 's', ' '] := rfl
  have ha : ("@ ").data = ['@', ' '] := rfl
  rw [hv, ha] at h2
  simp at h2

theorem todayBranch_eq_some (nickname : String) (game : Game) (ls : Linescore)
    (team_id : Nat) (utc_now : Int) (p : NextUp)
    (h : todayBranch nickname game ls team_id utc_now = some p) :
    p.date = game.game_date ∧ p.middle = opponent_name game.teams team_id := by
  rw [todayBranch, Option.map_eq_some'] at h
  obtain ⟨tb, -, hp⟩ := h
  subst hp
  exact ⟨rfl, rfl⟩

theorem today_top_bottom_final (nickname : String) (game : Game) (ls : Linescore)
    (h4 : game.status.is_preview = false) (h5 : game.status.is_live = false) :
    today_top_bottom nickname game ls = some ("Final", "") := by
  rw [today_top_bottom]
  simp [h4, h5]

/-! ## Claims -/

/-- C1: In the resolution call, if the `today` schedule document is present
(total items ≥ 1) and its first game's scheduled start falls on the same
Pacific-local calendar day as `now`, then the `today` snapshot governs the
resolved payload (its event instant and opponent line come from that game)
and the `next` document is ignored; otherwise, if the `next` document
resolves to a game, that game governs the payload. -/
theorem C1_resolution_precedence (nickname : String) (line : NextGameSchedule)
    (resp resp' : Response) (team_id : Nat) (utc_now ambient : Int) :
    (line.game_today utc_now = some true →
      NextUp.new nickname line resp team_id utc_now ambient
        = NextUp.new nickname line resp' team_id utc_now ambient
      ∧ ∀ gd g p, line.dates[0]? = some gd → gd.games[0]? = some g →
          NextUp.new nickname line resp team_id utc_now ambient = some p →
          p.date = g.game_date ∧ p.middle = opponent_name g.teams team_id)
    ∧ (line.game_today utc_now = some false →
      ∀ t ngs gd g p, resp.teams[0]? = some t → t.next_game_schedule = some ngs →
        ngs.dates[0]? = some gd → gd.games[0]? = some g →
        NextUp.new nickname line resp team_id utc_now ambient = some p →
        p.date = g.game_date ∧ p.middle = opponent_name g.teams team_id) := by
  constructor
  · intro h
    constructor
    · simp only [NextUp.new, h, Option.some_bind, if_true]
    · intro gd g p h2 h3 h6
      simp only [NextUp.new, h, Option.some_bind, if_true, h2, h3] at h6
      cases hls : g.linescore with
      | none => rw [hls] at h6; simp at h6
      | some ls =>
        rw [hls, Option.some_bind] at h6
        exact todayBranch_eq_some _ _ _ _ _ _ h6
  · intro h t ngs gd g p h2 h3 h4 h5 h6
    simp only [NextUp.new, h, Option.some_bind, Bool.false_eq_true, if_false, h2, h3, h4, h5,
      Option.some.injEq] at h6
    subst h6
    exact ⟨rfl, rfl⟩

/-- Witness for C1: with a live game governing `today`, swapping the `next`
document between two different responses does not change the payload. -/
theorem C1_witness :
    NextUp.new "Sharks" (lineIntermission 761) respNone 1 tsMar21 0
      = NextUp.new "Sharks" (lineIntermission 761) respNext 1 tsMar21 0 :=
  ((C1_resolution_precedence "Sharks" (lineIntermission 761) respNone respNext 1 tsMar21 0).1
    (by decide)).1

/-- C2: For every `today`-governing game snapshot whose phase is neither
Preview nor Live (i.e. Final), the resolved payload has `top = "Final"` and
`bottom = ""`, regardless of any period/clock fields present in the
snapshot's linescore. -/
theorem C2_final_payload (nickname : String) (line : NextGameSchedule) (resp : Response)
    (team_id : Nat) (utc_now ambient : Int) (gd : GameDate) (g : Game) (p : NextUp)
    (h1 : line.game_today utc_now = some true)
    (h2 : line.dates[0]? = some gd) (h3 : gd.games[0]? = some g)
    (h4 : g.status.is_preview = false) (h5 : g.status.is_live = false)
    (h6 : NextUp.new nickname line resp team_id utc_now ambient = some p) :
    p.top = "Final" ∧ p.bottom = "" := by
  simp only [NextUp.new, h1, Option.some_bind, if_true, h2, h3] at h6
  cases hls : g.linescore with
  | none => rw [hls] at h6; simp at h6
  | some ls =>
    rw [hls, Option.some_bind, todayBranch, today_top_bottom_final nickname g ls h4 h5,
      Option.map_some'] at h6
    injection h6 with h6
    subst h6
    exact ⟨rfl, rfl⟩

/-- Witness for C2: the concrete finished game resolves to the `Final`
payload with an empty bottom line despite its populated linescore. -/
theorem C2_witness :
    NextUp.new "Sharks" lineFinal respNone 1 tsMar21 0 = some finalPayload
    ∧ finalPayload.top = "Final" ∧ finalPayload.bottom = "" :=
  ⟨by decide,
   C2_final_payload "Sharks" lineFinal respNone 1 tsMar21 0
     { date := "2021-03-21", games := [gameFinal] } gameFinal finalPayload
     (by decide) (by decide) (by decide) (by decide) (by decide) (by decide)⟩

/-- C3: For every `now`, if the `today` schedule has no game governing today
and the `next` document's team carries no next-game schedule, resolution does
not fail and returns the default payload: `middle = "No Games"`, empty
bottom, `top` = the team label followed by `" Next Up"`, and the idle sleep
interval of 900 seconds. -/
theorem C3_default_payload (nickname : String) (line : NextGameSchedule) (resp : Response)
    (team_id : Nat) (utc_now ambient : Int) (t : ScheduledTeam)
    (h1 : line.game_today utc_now = some false)
    (h2 : resp.teams[0]? = some t)
    (h3 : t.next_game_schedule = none) :
    ∃ p, NextUp.new nickname line resp team_id utc_now ambient = some p
      ∧ p.middle = "No Games" ∧ p.bottom = "" ∧ p.top = nickname ++ " Next Up"
      ∧ p.sleep = 900 := by
  refine ⟨{ NextUp.default ambient with top := nickname ++ " Next Up" }, ?_, rfl, rfl, rfl, rfl⟩
  simp only [NextUp.new, h1, Option.some_bind, Bool.false_eq_true, if_false, h2, h3]

/-- Witness for C3: the empty linescore together with a schedule-less team
record resolves to the "No Games" default payload. -/
theorem C3_witness :
    ∃ p, NextUp.new "Sharks" emptyLine respNone 28 tsMar19 0 = some p
      ∧ p.middle = "No Games" ∧ p.bottom = "" ∧ p.top = "Sharks" ++ " Next Up"
      ∧ p.sleep = 900 :=
  C3_default_payload "Sharks" emptyLine respNone 28 tsMar19 0
    { id := 28, name := "San Jose Sharks", next_game_schedule := none }
    (by decide) (by decide) (by decide)

/-- C4: The computed sleep interval is monotonically non-increasing as the
signed difference `(eventInstant - now)` decreases toward the 20-minute
near-horizon threshold while remaining above it, and equals the short fixed
interval of 60 seconds for every difference between 0 and 20 minutes
inclusive. -/
theorem C4_sleep_policy :
    (∀ dt1 dt2 utc_now : Int,
        TWENTY_MINUTES_IN_SECONDS < dt2 - utc_now → dt2 - utc_now ≤ dt1 - utc_now →
        sleep_time dt2 utc_now ≤ sleep_time dt1 utc_now)
    ∧ (∀ dt utc_now : Int,
        0 ≤ dt - utc_now → dt - utc_now ≤ TWENTY_MINUTES_IN_SECONDS →
        sleep_time dt utc_now = ONE_MINUTE_IN_SECONDS) := by
  constructor
  · intro dt1 dt2 utc_now h1 h2
    simp only [sleep_time, ONE_MINUTE_IN_SECONDS, TWO_HOURS_IN_SECONDS,
      TWENTY_MINUTES_IN_SECONDS, ONE_HOUR_IN_SECONDS, min_def] at *
    split_ifs <;> omega
  · intro dt utc_now h1 h2
    simp only [sleep_time, ONE_MINUTE_IN_SECONDS, TWO_HOURS_IN_SECONDS,
      TWENTY_MINUTES_IN_SECONDS, ONE_HOUR_IN_SECONDS, min_def] at *
    split_ifs <;> omega

/-- Witness for C4: concrete instances of both clauses of the sleep policy. -/
theorem C4_witness :
    sleep_time 3000 0 ≤ sleep_time 4000 0 ∧ sleep_time 600 0 = ONE_MINUTE_IN_SECONDS :=
  ⟨C4_sleep_policy.1 4000 3000 0 (by decide) (by decide),
   C4_sleep_policy.2 600 0 (by decide) (by decide)⟩

/-- C5 counterexample: with home id 5, away id 1 and queried identifier 3
(matching neither team), the claim demands `"vs " ++ awayName` since the
queried identifier differs from the away identifier, but the code returns
`"@ " ++ homeName`. -/
theorem C5_counterexample :
    (3 : Nat) ≠ pensVsDevils.away.team.id
    ∧ opponent_name pensVsDevils 3 ≠ "vs " ++ pensVsDevils.away.team.name
    ∧ opponent_name pensVsDevils 3 = "@ " ++ pensVsDevils.home.team.name := by
  refine ⟨by decide, by decide, by decide⟩

/-- C5 (amended): provided the queried identifier belongs to one of the two
teams and the two identifiers are distinct, the payload's middle line is
`"@ " ++ homeName` exactly when the queried identifier equals the away
team's identifier, and `"vs " ++ awayName` exactly otherwise — never both. -/
theorem C5_opponent_relation (teams : Teams) (q : Nat)
    (hmem : q = teams.home.team.id ∨ q = teams.away.team.id)
    (hne : teams.home.team.id ≠ teams.away.team.id) :
    (opponent_name teams q = "@ " ++ teams.home.team.name ↔ q = teams.away.team.id)
    ∧ (opponent_name teams q = "vs " ++ teams.away.team.name ↔ q ≠ teams.away.team.id) := by
  rcases hmem with h | h
  · subst h
    rw [opponent_name, if_pos rfl]
    constructor
    · exact ⟨fun hvs => (string_vs_ne_at _ _ hvs).elim, fun hq => (hne hq).elim⟩
    · exact ⟨fun _ => hne, fun _ => rfl⟩
  · subst h
    rw [opponent_name, if_neg (fun hh => hne hh)]
    constructor
    · exact ⟨fun _ => rfl, fun _ => rfl⟩
    · exact ⟨fun hvs => (string_vs_ne_at _ _ hvs.symm).elim, fun hq => (hq rfl).elim⟩

/-- Witness for C5 (amended): querying the away team's identifier yields the
`"@ "` form and not the `"vs "` form. -/
theorem C5_witness :
    (opponent_name pensVsDevils 1 = "@ " ++ pensVsDevils.home.team.name
      ↔ (1 : Nat) = pensVsDevils.away.team.id)
    ∧ (opponent_name pensVsDevils 1 = "vs " ++ pensVsDevils.away.team.name
      ↔ (1 : Nat) ≠ pensVsDevils.away.team.id) :=
  C5_opponent_relation pensVsDevils 1 (Or.inr (by decide)) (by decide)

/-- C6 counterexample: in the live-intermission scenario with 761 remaining
seconds and ordinal "1st", the resolved payload's bottom field is `"Live"`,
not the clock text `"1st int|12:41"` the claim asserts. -/
theorem C6_counterexample :
    (NextUp.new "Sharks" (lineIntermission 761) respNone 1 tsMar21 0).map NextUp.bottom
      ≠ some "1st int|12:41"
    ∧ (NextUp.new "Sharks" (lineIntermission 761) respNone 1 tsMar21 0).map NextUp.bottom
      = some "Live" := by
  refine ⟨by decide, by decide⟩

/-- C6 (amended): when `today` governs, the phase is Live, the intermission
flag is active with 761 remaining seconds and the ordinal is "1st", the
clock text `"1st int|12:41"` (761 s = 12 m 41 s) appears in the payload's
top field, while the bottom field reads `"Live"`. -/
theorem C6_intermission_scenario :
    (NextUp.new "Sharks" (lineIntermission 761) respNone 1 tsMar21 0).map NextUp.top
      = some "1st int|12:41"
    ∧ (NextUp.new "Sharks" (lineIntermission 761) respNone 1 tsMar21 0).map NextUp.bottom
      = some "Live" := by
  refine ⟨by decide, by decide⟩

/-- C7: the merge/selector over the primary and the secondary (Barracuda)
payloads returns, when both are available, one of the two — the one whose
event instant is earlier (its instant is a lower bound of both, and a
strictly earlier source is always chosen); when exactly one is available it
returns that one unconditionally; when both are unavailable it returns the
default payload. -/
theorem C7_merge_selector (b nhl : Option NextUp) (ambient : Int) :
    (b = none → nhl = none → get_next_up_either b nhl ambient = NextUp.default ambient)
    ∧ (∀ x, b = some x → nhl = none → get_next_up_either b nhl ambient = x)
    ∧ (∀ y, b = none → nhl = some y → get_next_up_either b nhl ambient = y)
    ∧ (∀ x y, b = some x → nhl = some y →
        (get_next_up_either b nhl ambient = x ∨ get_next_up_either b nhl ambient = y)
        ∧ (get_next_up_either b nhl ambient).date ≤ x.date
        ∧ (get_next_up_either b nhl ambient).date ≤ y.date
        ∧ (y.date < x.date → get_next_up_either b nhl ambient = y)
        ∧ (x.date < y.date → get_next_up_either b nhl ambient = x)) := by
  refine ⟨?_, ?_, ?_, ?_⟩
  · rintro rfl rfl; rfl
  · rintro x rfl rfl; rfl
  · rintro y rfl rfl; rfl
  · rintro x y rfl rfl
    simp only [get_next_up_either]
    by_cases h : y.date < x.date
    · rw [if_pos h]
      exact ⟨Or.inr rfl, le_of_lt h, le_refl _, fun _ => rfl, fun h' => (lt_asymm h h').elim⟩
    · rw [if_neg h]
      exact ⟨Or.inl rfl, le_refl _, le_of_not_lt h, fun h' => (h h').elim, fun _ => rfl⟩

/-- Witness for C7: with both sources available, the merge keeps the earlier
event and would only switch under the opposite ordering. -/
theorem C7_witness :
    (get_next_up_either (some nuEarly) (some nuLate) 0 = nuEarly
      ∨ get_next_up_either (some nuEarly) (some nuLate) 0 = nuLate)
    ∧ (get_next_up_either (some nuEarly) (some nuLate) 0).date ≤ nuEarly.date
    ∧ (get_next_up_either (some nuEarly) (some nuLate) 0).date ≤ nuLate.date
    ∧ (nuLate.date < nuEarly.date → get_next_up_either (some nuEarly) (some nuLate) 0 = nuLate)
    ∧ (nuEarly.date < nuLate.date → get_next_up_either (some nuEarly) (some nuLate) 0 = nuEarly) :=
  (C7_merge_selector (some nuEarly) (some nuLate) 0).2.2.2 nuEarly nuLate rfl rfl

/-- C8: the game-identifier decoder is total — it returns `some` decoded
structure for every integer identifier — and every phase code other than the
recognized Preseason (1) and Playoff (3) codes decodes to the `Regular`
variant. -/
theorem C8_decoder_total (game_id : Nat) :
    (decode_game_id game_id).isSome = true
    ∧ ((game_id % 100000) / 10000 ≠ 1 → (game_id % 100000) / 10000 ≠ 3 →
        decode_game_id game_id
          = some { season := game_id / 1000000
                   game_type := GameType.Regular (game_id % 100000) }) := by
  refine ⟨rfl, fun h1 h3 => ?_⟩
  simp only [decode_game_id, GameType.parse]
  rw [if_neg h1, if_neg h3]

/-- Witness for C8: the regular-season identifier 2020020694 (phase code 2)
decodes to season 2020 with the `Regular` variant. -/
theorem C8_witness :
    (decode_game_id 2020020694).isSome = true
    ∧ decode_game_id 2020020694
        = some { season := 2020, game_type := GameType.Regular 20694 } :=
  ⟨(C8_decoder_total 2020020694).1,
   ((C8_decoder_total 2020020694).2 (by decide) (by decide)).trans (by decide)⟩

/-- C9 counterexample: with identical documents, team identifier, team label
and `now`, the two calls differ when the ambient clock read by
`NextUp::default()` (`Utc::now()` inside the no-games branch) differs, so
the payload is not a function of the listed inputs alone. -/
theorem C9_counterexample :
    NextUp.new "Sharks" emptyLine respNone 28 tsMar19 tsMar19
      ≠ NextUp.new "Sharks" emptyLine respNone 28 tsMar19 (tsMar19 + 86400) := by
  decide

/-- C9 (amended): the resolution engine is deterministic in its input
documents, team identifier, team label, `now`, and the ambient clock.  Any
two calls with identical listed inputs agree on the top, middle, bottom and
sleep fields whatever the ambient clock reads, and agree on the whole
payload (currentTime and event instant included) whenever a game governs —
only the no-games default branch takes its currentTime and event-instant
fields from the ambient clock. -/
theorem C9_determinism (nickname : String) (line : NextGameSchedule) (resp : Response)
    (team_id : Nat) (utc_now amb1 amb2 : Int) :
    (∀ p1 p2, NextUp.new nickname line resp team_id utc_now amb1 = some p1 →
        NextUp.new nickname line resp team_id utc_now amb2 = some p2 →
        p1.top = p2.top ∧ p1.middle = p2.middle ∧ p1.bottom = p2.bottom ∧ p1.sleep = p2.sleep)
    ∧ (line.game_today utc_now = some true →
        NextUp.new nickname line resp team_id utc_now amb1
          = NextUp.new nickname line resp team_id utc_now amb2)
    ∧ (∀ t ngs, resp.teams[0]? = some t → t.next_game_schedule = some ngs →
        NextUp.new nickname line resp team_id utc_now amb1
          = NextUp.new nickname line resp team_id utc_now amb2) := by
  refine ⟨?_, ?_, ?_⟩
  · intro p1 p2 h1 h2
    cases hgt : line.game_today utc_now with
    | none => rw [NextUp.new, hgt] at h1; simp at h1
    | some gt =>
      cases gt with
      | true =>
        simp only [NextUp.new, hgt, Option.some_bind, if_true] at h1 h2
        rw [h1] at h2
        injection h2 with h2
        rw [h2]
        exact ⟨rfl, rfl, rfl, rfl⟩
      | false =>
        simp only [NextUp.new, hgt, Option.some_bind, Bool.false_eq_true, if_false] at h1 h2
        cases ht : resp.teams[0]? with
        | none => rw [ht] at h1; simp at h1
        | some t =>
          rw [ht, Option.some_bind] at h1 h2
          cases hn : t.next_game_schedule with
          | some ngs =>
            rw [hn] at h1 h2
            rw [h1] at h2
            injection h2 with h2
            rw [h2]
            exact ⟨rfl, rfl, rfl, rfl⟩
          | none =>
            rw [hn] at h1 h2
            injection h1 with h1
            injection h2 with h2
            rw [← h1, ← h2]
            exact ⟨rfl, rfl, rfl, rfl⟩
  · intro h
    simp only [NextUp.new, h, Option.some_bind, if_true]
  · intro t ngs ht hn
    cases hgt : line.game_today utc_now with
    | none => rw [NextUp.new, NextUp.new, hgt]; rfl
    | some gt =>
      cases gt with
      | true => simp only [NextUp.new, hgt, Option.some_bind, if_true]
      | false =>
        simp only [NextUp.new, hgt, Option.some_bind, Bool.false_eq_true, if_false, ht, hn]

/-- Witness for C9 (amended): with a game governing `today`, two different
ambient-clock readings give the identical payload. -/
theorem C9_witness :
    NextUp.new "Sharks" (lineIntermission 761) respNone 1 tsMar21 0
      = NextUp.new "Sharks" (lineIntermission 761) respNone 1 tsMar21 999 :=
  (C9_determinism "Sharks" (lineIntermission 761) respNone 1 tsMar21 0 999).2.1 (by decide)

/-- C10: in the live-intermission clock text the minutes component is
printed without a leading zero while the seconds component is zero-padded to
two digits — 526 remaining seconds render as "8:46", 761 as "12:41" and 0 as
"0:00" in the resolved payload's clock line. -/
theorem C10_intermission_minute_padding :
    (NextUp.new "Sharks" (lineIntermission 526) respNone 1 tsMar21 0).map NextUp.top
      = some "1st int|8:46"
    ∧ (NextUp.new "Sharks" (lineIntermission 761) respNone 1 tsMar21 0).map NextUp.top
      = some "1st int|12:41"
    ∧ (NextUp.new "Sharks" (lineIntermission 0) respNone 1 tsMar21 0).map NextUp.top
      = some "1st int|0:00" := by
  refine ⟨by decide, by decide, by decide⟩
